import Mathlib

/-!
Verification development for a minimal task-management HTTP service
(FastAPI + SQLModel + SQLite template).

The service exposes two routes:
  GET  /ping   -> fixed acknowledgment payload
  POST /task/  -> validate a creation payload, insert a Task row, return it

We embed the three source files shallowly:
  app/models.py : the Task entity and its TaskCreate projection,
                  together with the input validation the declared field
                  types induce on a JSON payload
  app/db.py     : the table-creation routine init_db and the
                  transactional session semantics (all-or-nothing commit)
  app/main.py   : the two route handlers, pong and create_task

Storage is modelled as a list of persisted rows plus the list of created
tables; the SQLite integer primary key is modelled by assigning the
successor of the maximum existing id, which is the rowid-allocation rule
the engine applies to this schema.
-/

namespace App

/-- A JSON value, the wire representation of request and response bodies. -/
inductive Json where
  | null : Json
  | boolean : Bool → Json
  | num : Int → Json
  | str : String → Json
  | arr : List Json → Json
  | obj : List (String × Json) → Json

/-- True exactly on JSON string values. -/
def Json.isString : Json → Bool
  | Json.str _ => true
  | _ => false

/-- The persisted Task entity of app/models.py: class Task(TaskBase, table=True).
The id column is Optional until the database assigns it at insert time,
matching id: int = Field(default=None, primary_key=True). -/
structure Task where
  id : Option Nat
  task_name : String
  task_description : Option String
deriving DecidableEq

/-- The creation payload of app/models.py: class TaskCreate(TaskBase), carrying
task_name: str and task_description: Optional[str] = None. -/
structure TaskCreate where
  task_name : String
  task_description : Option String
deriving DecidableEq

/-- The database state: the set of created tables and the persisted rows of
the single task table. -/
structure Store where
  tables : List String
  rows : List Task
deriving DecidableEq

/-- The database before any operation: no tables, no rows. -/
def Store.empty : Store := { tables := [], rows := [] }

/-- An HTTP response: a status code and a JSON body. -/
structure Response where
  status : Nat
  body : Json

/-- A field-level validation failure: the location of the offending field
and a message, as surfaced in a 422 response detail entry. -/
structure ValidationError where
  loc : List String
  msg : String
deriving DecidableEq

/-- Serialization of one validation failure into the 422 detail entry. -/
def ValidationError.toJson (e : ValidationError) : Json :=
  Json.obj [("loc", Json.arr (e.loc.map Json.str)), ("msg", Json.str e.msg)]

/-- The 422 response carrying field-level validation detail. -/
def errorResponse (e : ValidationError) : Response :=
  { status := 422, body := Json.obj [("detail", Json.arr [e.toJson])] }

/-- The 500 response body produced when the storage layer fails. -/
def serverErrorBody : Json :=
  Json.obj [("detail", Json.str "Internal Server Error")]

/-- Validation of the required task_name field against its declared type
task_name: str — absent or non-string values are rejected. -/
def parseTaskName : Option Json → Except ValidationError String
  | some (Json.str s) => Except.ok s
  | some _ => Except.error { loc := ["body", "task_name"], msg := "str type expected" }
  | none => Except.error { loc := ["body", "task_name"], msg := "field required" }

/-- Validation of the optional task_description field against its declared
type task_description: Optional[str] = None — absent or null becomes None. -/
def parseTaskDescription : Option Json → Except ValidationError (Option String)
  | none => Except.ok none
  | some Json.null => Except.ok none
  | some (Json.str s) => Except.ok (some s)
  | some _ => Except.error { loc := ["body", "task_description"], msg := "str type expected" }

/-- Validation of an inbound creation payload into a TaskCreate, as induced
by the field declarations of TaskBase in app/models.py. -/
def parseTaskCreate : Json → Except ValidationError TaskCreate
  | Json.obj fields =>
    match parseTaskName (fields.lookup "task_name") with
    | Except.error e => Except.error e
    | Except.ok s =>
      match parseTaskDescription (fields.lookup "task_description") with
      | Except.error e => Except.error e
      | Except.ok d => Except.ok { task_name := s, task_description := d }
  | _ => Except.error { loc := ["body"], msg := "value is not a valid dict" }

/-- The id the engine assigns to the next inserted row: one more than the
largest id already persisted (the SQLite rowid-allocation rule for an
integer primary key). -/
def freshId (st : Store) : Nat :=
  (st.rows.filterMap (fun t => t.id)).foldr max 0 + 1

/-- Serialization of a Task row to its JSON wire representation, as the
response_model=Task annotation produces it. -/
def taskJson (t : Task) : Json :=
  Json.obj
    [ ("id", match t.id with | some i => Json.num i | none => Json.null),
      ("task_name", Json.str t.task_name),
      ("task_description",
        match t.task_description with | some d => Json.str d | none => Json.null) ]

/-- The GET /ping handler pong of app/main.py: a fixed payload, the store
untouched. -/
def pong (st : Store) : Response × Store :=
  ({ status := 200, body := Json.obj [("ping", Json.str "pong!")] }, st)

/-- The POST /task/ handler create_task of app/main.py. The payload is
validated into a TaskCreate; the handler then builds
Task(task_name=task.task_name) — copying only task_name, so the new row
has task_description = None — adds it to the session and commits. The
commitOk flag models whether the storage layer completes the commit: on
failure the transaction is rolled back when the scoped session of
app/db.py closes, leaving the store unchanged, and a server error is
returned. -/
def postTask (j : Json) (st : Store) (commitOk : Bool) : Response × Store :=
  match parseTaskCreate j with
  | Except.error e => (errorResponse e, st)
  | Except.ok payload =>
    let t : Task := { id := none, task_name := payload.task_name, task_description := none }
    if commitOk then
      let row : Task := { t with id := some (freshId st) }
      ({ status := 200, body := taskJson row }, { st with rows := st.rows ++ [row] })
    else
      ({ status := 500, body := serverErrorBody }, st)

/-- The tables declared by the model metadata: the single task table. -/
def declaredTables : List String := ["task"]

/-- SQLModel.metadata.create_all as run by init_db of app/db.py: every
declared table that does not yet exist is created; existing tables and
all rows are left alone. -/
def create_all (tables : List String) : List String :=
  tables ++ declaredTables.filter (fun t => !(tables.contains t))

/-- The startup routine init_db of app/db.py: runs create_all against the
store, touching only the table set. -/
def init_db (st : Store) : Store :=
  { st with tables := create_all st.tables }

/-- The store states reachable through the exposed operations: startup
initialization, GET /ping and POST /task/ (with any payload and either
commit outcome), starting from the empty database file. -/
inductive Reachable : Store → Prop where
  | start : Reachable Store.empty
  | step_init (st : Store) : Reachable st → Reachable (init_db st)
  | step_ping (st : Store) : Reachable st → Reachable (pong st).2
  | step_post (st : Store) (j : Json) (ok : Bool) :
      Reachable st → Reachable (postTask j st ok).2

/-- The concrete creation payload of the spec example:
task_name "buy milk", task_description "2%". -/
def examplePayload : Json :=
  Json.obj [("task_name", Json.str "buy milk"), ("task_description", Json.str "2%")]

/-- Helper: every element of a list of naturals is bounded by its foldr max. -/
theorem le_foldr_max (l : List Nat) (x : Nat) (hx : x ∈ l) : x ≤ l.foldr max 0 := by
  induction l with
  | nil => cases hx
  | cons a t ih =>
    rcases List.mem_cons.mp hx with h | h
    · subst h; exact le_max_left _ _
    · exact le_trans (ih h) (le_max_right _ _)

/-- Helper: the freshly assigned id differs from the id of every row already
persisted in the store. -/
theorem freshId_not_mem (st : Store) (r : Task) (hr : r ∈ st.rows) :
    r.id ≠ some (freshId st) := by
  intro hid
  have hmem : freshId st ∈ st.rows.filterMap (fun t => t.id) :=
    List.mem_filterMap.mpr ⟨r, hr, hid⟩
  have hle := le_foldr_max _ _ hmem
  simp only [freshId] at hle
  omega

/-- Helper: a POST either leaves the store untouched (validation or commit
failure) or appends exactly one freshly numbered row with an empty
description. -/
theorem postTask_store_shape (j : Json) (st : Store) (ok : Bool) :
    (postTask j st ok).2 = st ∨
    ∃ s : String,
      (postTask j st ok).2 =
        { st with rows :=
            st.rows ++ [{ id := some (freshId st), task_name := s, task_description := none }] } := by
  unfold postTask
  cases hp : parseTaskCreate j with
  | error e => left; rfl
  | ok p =>
    cases ok with
    | true => right; exact ⟨p.task_name, rfl⟩
    | false => left; rfl

/-- C4: GET /ping always returns the fixed payload with status 200 and
leaves the store unchanged, whatever the storage state. -/
theorem ping_returns_pong (st : Store) :
    pong st = ({ status := 200, body := Json.obj [("ping", Json.str "pong!")] }, st) := rfl

/-- C1 counterexample: on the empty store, the spec example request with
task_description "2%" does NOT receive the body claimed by the spec: the
handler drops the supplied description, so the response carries null. -/
theorem create_task_example_description_not_persisted :
    (postTask examplePayload Store.empty true).1 ≠
      { status := 200,
        body := Json.obj
          [ ("id", Json.num 1), ("task_name", Json.str "buy milk"),
            ("task_description", Json.str "2%") ] } := by
  intro h
  have e : (postTask examplePayload Store.empty true).1 =
      { status := 200,
        body := Json.obj
          [ ("id", Json.num 1), ("task_name", Json.str "buy milk"),
            ("task_description", Json.null) ] } := rfl
  rw [e] at h
  injection h with hstatus hbody
  injection hbody with hfields
  injection hfields with h1 htail1
  injection htail1 with h2 htail2
  injection htail2 with h3 htail3
  injection h3 with hkey hval
  injection hval

/-- C1 amended: on the empty store, the spec example request returns status
200 with id 1 and task_name "buy milk", but with task_description null, and
persists the single row with id 1, task_name "buy milk" and no description:
the supplied task_description is discarded. -/
theorem create_task_example_returns_null_description :
    postTask examplePayload Store.empty true =
      ({ status := 200,
         body := Json.obj
           [ ("id", Json.num 1), ("task_name", Json.str "buy milk"),
             ("task_description", Json.null) ] },
       { tables := [],
         rows := [{ id := some 1, task_name := "buy milk", task_description := none }] }) := rfl

/-- C2: for every payload that validates, the handler copies only task_name:
the row it persists and the representation it returns both carry
task_description null, even when the payload supplied one. -/
theorem create_task_discards_description (j : Json) (st : Store) (p : TaskCreate)
    (h : parseTaskCreate j = Except.ok p) :
    (postTask j st true).2.rows =
      st.rows ++ [{ id := some (freshId st), task_name := p.task_name, task_description := none }] ∧
    (postTask j st true).1 =
      { status := 200,
        body := Json.obj
          [ ("id", Json.num (freshId st)), ("task_name", Json.str p.task_name),
            ("task_description", Json.null) ] } := by
  constructor
  · simp [postTask, h]
  · simp [postTask, h, taskJson]

/-- C2 witness: the spec example payload supplies task_description "2%", yet
the persisted row and the returned body carry a null description. -/
theorem create_task_discards_description_witness :
    (postTask examplePayload Store.empty true).2.rows =
      Store.empty.rows ++
        [{ id := some (freshId Store.empty), task_name := "buy milk", task_description := none }] ∧
    (postTask examplePayload Store.empty true).1 =
      { status := 200,
        body := Json.obj
          [ ("id", Json.num (freshId Store.empty)), ("task_name", Json.str "buy milk"),
            ("task_description", Json.null) ] } :=
  create_task_discards_description examplePayload Store.empty
    { task_name := "buy milk", task_description := some "2%" } rfl

/-- C3: a POST whose payload validates to task_name s alone appends exactly
one new row to the store: that row has task_name s, a fresh id distinct
from the id of every previously persisted row, and a null description, and
the response is the serialized row including the assigned id. -/
theorem create_task_appends_fresh_row (j : Json) (st : Store) (s : String)
    (h : parseTaskCreate j = Except.ok { task_name := s, task_description := none }) :
    ∃ fid : Nat,
      (postTask j st true).2.rows =
        st.rows ++ [{ id := some fid, task_name := s, task_description := none }] ∧
      (∀ r ∈ st.rows, r.id ≠ some fid) ∧
      (postTask j st true).1 =
        { status := 200,
          body := taskJson { id := some fid, task_name := s, task_description := none } } := by
  refine ⟨freshId st, ?_, ?_, ?_⟩
  · simp [postTask, h]
  · intro r hr
    exact freshId_not_mem st r hr
  · simp [postTask, h]

/-- C3 witness: creating "buy milk" on the empty store appends one row with
a fresh id and null description and returns it. -/
theorem create_task_appends_fresh_row_witness :
    ∃ fid : Nat,
      (postTask (Json.obj [("task_name", Json.str "buy milk")]) Store.empty true).2.rows =
        Store.empty.rows ++ [{ id := some fid, task_name := "buy milk", task_description := none }] ∧
      (∀ r ∈ Store.empty.rows, r.id ≠ some fid) ∧
      (postTask (Json.obj [("task_name", Json.str "buy milk")]) Store.empty true).1 =
        { status := 200,
          body := taskJson { id := some fid, task_name := "buy milk", task_description := none } } :=
  create_task_appends_fresh_row (Json.obj [("task_name", Json.str "buy milk")])
    Store.empty "buy milk" rfl

/-- C5: a POST whose payload omits task_name is rejected with a 422 response
whose detail names the task_name field, and the store is exactly the store
before the request. -/
theorem missing_task_name_rejected (fields : List (String × Json)) (st : Store) (ok : Bool)
    (h : fields.lookup "task_name" = none) :
    postTask (Json.obj fields) st ok =
      ({ status := 422,
         body := Json.obj
           [ ("detail", Json.arr
               [ Json.obj
                   [ ("loc", Json.arr [Json.str "body", Json.str "task_name"]),
                     ("msg", Json.str "field required") ] ]) ] },
       st) := by
  simp [postTask, parseTaskCreate, h, parseTaskName, errorResponse, ValidationError.toJson]

/-- C5 witness: the empty JSON object is rejected with 422 naming task_name
and the empty store stays empty. -/
theorem missing_task_name_rejected_witness :
    postTask (Json.obj []) Store.empty true =
      ({ status := 422,
         body := Json.obj
           [ ("detail", Json.arr
               [ Json.obj
                   [ ("loc", Json.arr [Json.str "body", Json.str "task_name"]),
                     ("msg", Json.str "field required") ] ]) ] },
       Store.empty) :=
  missing_task_name_rejected [] Store.empty true rfl

/-- C6: a POST whose task_name is present but not a string is rejected with
a 422 response whose detail names the task_name field, and no row is
created. -/
theorem wrong_typed_task_name_rejected (fields : List (String × Json)) (st : Store) (ok : Bool)
    (v : Json) (hv : fields.lookup "task_name" = some v) (hs : v.isString = false) :
    postTask (Json.obj fields) st ok =
      ({ status := 422,
         body := Json.obj
           [ ("detail", Json.arr
               [ Json.obj
                   [ ("loc", Json.arr [Json.str "body", Json.str "task_name"]),
                     ("msg", Json.str "str type expected") ] ]) ] },
       st) := by
  cases v <;>
    simp_all [postTask, parseTaskCreate, parseTaskName, Json.isString, errorResponse,
      ValidationError.toJson]

/-- C6 witness: a payload whose task_name is the number 123 is rejected with
422 and the empty store stays empty. -/
theorem wrong_typed_task_name_rejected_witness :
    postTask (Json.obj [("task_name", Json.num 123)]) Store.empty true =
      ({ status := 422,
         body := Json.obj
           [ ("detail", Json.arr
               [ Json.obj
                   [ ("loc", Json.arr [Json.str "body", Json.str "task_name"]),
                     ("msg", Json.str "str type expected") ] ]) ] },
       Store.empty) :=
  wrong_typed_task_name_rejected [("task_name", Json.num 123)] Store.empty true
    (Json.num 123) rfl rfl

/-- C7: when the storage layer fails during the commit of a validated
creation request, the request yields a 500 server error and the store is
exactly the store before the request: the transaction is all-or-nothing. -/
theorem commit_failure_rolls_back (j : Json) (st : Store) (p : TaskCreate)
    (h : parseTaskCreate j = Except.ok p) :
    postTask j st false = ({ status := 500, body := serverErrorBody }, st) := by
  simp [postTask, h]

/-- C7 witness: a failing commit of the spec example payload on the empty
store returns 500 and leaves the store empty. -/
theorem commit_failure_rolls_back_witness :
    postTask examplePayload Store.empty false =
      ({ status := 500, body := serverErrorBody }, Store.empty) :=
  commit_failure_rolls_back examplePayload Store.empty
    { task_name := "buy milk", task_description := some "2%" } rfl

/-- Helper: running create_all twice yields the same table set as running
it once. -/
theorem create_all_idem (l : List String) : create_all (create_all l) = create_all l := by
  by_cases h : l.contains "task" = true
  · simp [create_all, declaredTables, h]
  · simp [create_all, declaredTables, h]

/-- Helper: after create_all, every table declared by the model exists. -/
theorem mem_create_all (l : List String) : ∀ t ∈ declaredTables, t ∈ create_all l := by
  intro t ht
  simp only [declaredTables, List.mem_singleton] at ht
  subst ht
  simp [create_all, declaredTables]
  exact Classical.em _

/-- C8: init_db is idempotent: a second run after a first one changes
nothing, every persisted row is left intact, and every table declared by
the model exists afterwards. -/
theorem init_db_idempotent (st : Store) :
    init_db (init_db st) = init_db st ∧
    (init_db st).rows = st.rows ∧
    ∀ t ∈ declaredTables, t ∈ (init_db st).tables := by
  refine ⟨?_, rfl, ?_⟩
  · simp [init_db, create_all_idem]
  · exact mem_create_all st.tables

/-- C8 witness: initializing the empty database twice equals initializing
it once, rows are untouched, and the task table exists. -/
theorem init_db_idempotent_witness :
    init_db (init_db Store.empty) = init_db Store.empty ∧
    (init_db Store.empty).rows = Store.empty.rows ∧
    "task" ∈ (init_db Store.empty).tables :=
  ⟨(init_db_idempotent Store.empty).1, (init_db_idempotent Store.empty).2.1,
    (init_db_idempotent Store.empty).2.2 "task" (by decide)⟩

/-- C9: in every store state reachable through the exposed operations
(startup initialization, GET /ping, POST /task/), every persisted Task row
has a non-null id; its task_name is a string by construction. -/
theorem reachable_rows_have_id (st : Store) (h : Reachable st) :
    ∀ r ∈ st.rows, r.id.isSome = true := by
  induction h with
  | start => intro r hr; cases hr
  | step_init st' _ ih => intro r hr; exact ih r hr
  | step_ping st' _ ih => intro r hr; exact ih r hr
  | step_post st' j ok _ ih =>
    intro r hr
    rcases postTask_store_shape j st' ok with hsh | ⟨s, hsh⟩
    · rw [hsh] at hr
      exact ih r hr
    · rw [hsh] at hr
      simp only [List.mem_append, List.mem_singleton] at hr
      rcases hr with h1 | h1
      · exact ih r h1
      · subst h1; rfl

/-- C9 witness: the store reached by one successful creation on the empty
store contains the row with id 1, whose id is indeed non-null. -/
theorem reachable_rows_have_id_witness :
    ({ id := some 1, task_name := "buy milk", task_description := none } : Task).id.isSome = true :=
  reachable_rows_have_id ((postTask examplePayload Store.empty true).2)
    (Reachable.step_post Store.empty examplePayload true Reachable.start)
    { id := some 1, task_name := "buy milk", task_description := none } (by decide)

/-- C10: no exposed operation updates or deletes an existing row: ping
returns the store unchanged, and a POST leaves the table set alone and at
most appends to the rows, so every row persisted before the request is
still present afterwards with all of its fields unchanged. -/
theorem requests_never_update_or_delete (st : Store) :
    (pong st).2 = st ∧
    ∀ (j : Json) (ok : Bool), ∃ added : List Task,
      (postTask j st ok).2.rows = st.rows ++ added ∧
      (postTask j st ok).2.tables = st.tables := by
  refine ⟨rfl, ?_⟩
  intro j ok
  rcases postTask_store_shape j st ok with hsh | ⟨s, hsh⟩
  · exact ⟨[], by rw [hsh]; simp, by rw [hsh]⟩
  · exact ⟨[{ id := some (freshId st), task_name := s, task_description := none }],
      by rw [hsh], by rw [hsh]⟩

end App
